import Mathlib

/-
Verification development for update_light_pa.py.

The core pipeline is shallowly embedded over exact rationals.  Missing
data follows the Python semantics at the granularity the code observes:
a value can be absent (None), the floating NaN, or a number.  The
helper is_na mirrors the Python helper of the same name, treating both
None and NaN as missing.  Comparisons against NaN are false in Python;
the embedding encodes each comparison so that a NaN operand yields
false, which is exactly how the source code behaves on those paths.
-/

namespace UpdateLightPA

/-- A Python value as observed by the pipeline: absent, NaN, or a number. -/
inductive PAVal where
  | none
  | nan
  | num (q : ℚ)
deriving DecidableEq, Repr

/-- Embedding of the helper is_na: None and NaN count as missing. -/
def is_na : PAVal → Bool
  | PAVal.none => true
  | PAVal.nan  => true
  | PAVal.num _ => false

/-- A Python comparison x less-or-equal c: false when x is not a number. -/
def pvLe (x : PAVal) (c : ℚ) : Bool :=
  match x with
  | PAVal.num q => decide (q ≤ c)
  | _ => false

/-- A Python comparison x strictly greater than c: false when x is not a number. -/
def pvGt (x : PAVal) (c : ℚ) : Bool :=
  match x with
  | PAVal.num q => decide (c < q)
  | _ => false

/-- A Python comparison x greater-or-equal c: false when x is not a number. -/
def pvGe (x : PAVal) (c : ℚ) : Bool :=
  match x with
  | PAVal.num q => decide (c ≤ q)
  | _ => false

/-- The quantity abs of a minus b; only evaluated when both are numbers. -/
def pvAbsDiff : PAVal → PAVal → ℚ
  | PAVal.num qa, PAVal.num qb => |qa - qb|
  | _, _ => 0

/-- The Python max of two values; only evaluated when both are numbers. -/
def pvMax : PAVal → PAVal → PAVal
  | PAVal.num qa, PAVal.num qb => PAVal.num (max qa qb)
  | x, _ => x

/-- Embedding of get_best_pm from update_light_pa.py, branch for branch.
The inner block for two present channels falls through to the final
return of avg when none of its three guards fires, exactly as in the
source. -/
def get_best_pm (a b avg : PAVal) : PAVal :=
  if is_na a && !(is_na b) && pvLe b 2000 then b
  else if is_na b && !(is_na a) && pvLe a 2000 then a
  else if !(is_na a) && pvGt a 2000 && !(is_na b) && pvLe b 2000 then b
  else if !(is_na b) && pvGt b 2000 && !(is_na a) && pvLe a 2000 then a
  else if !(is_na a) && !(is_na b) then
    let diff := pvAbsDiff a b
    if decide (50 < diff) && decide (diff ≤ 500) then pvMax a b
    else if decide (500 < diff) then PAVal.none
    else if decide (diff ≤ 50) && !(is_na avg) && pvGe avg 0 then avg
    else avg
  else avg

/-- Claim-side predicate: the value is a present number that is at least zero. -/
def presentGe0 : PAVal → Bool
  | PAVal.num q => decide (0 ≤ q)
  | _ => false

/-- Selector written from the words of the specification claim: the
five-step precedence over missing and present channels, with the
remaining cases returning the network average as-is. -/
def get_best_pm_claim (a b avg : PAVal) : PAVal :=
  match a, b with
  | PAVal.num qa, PAVal.num qb =>
      if 2000 < qa ∧ qb ≤ 2000 then PAVal.num qb
      else if 2000 < qb ∧ qa ≤ 2000 then PAVal.num qa
      else if 50 < |qa - qb| ∧ |qa - qb| ≤ 500 then PAVal.num (max qa qb)
      else if 500 < |qa - qb| then PAVal.none
      else if |qa - qb| ≤ 50 ∧ presentGe0 avg = true then avg
      else avg
  | PAVal.num qa, _ => if qa ≤ 2000 then PAVal.num qa else avg
  | _, PAVal.num qb => if qb ≤ 2000 then PAVal.num qb else avg
  | _, _ => avg

/-- The selector with the nonnegativity guard on the average removed:
when the two channels agree within 50, the average is returned
unconditionally. -/
def get_best_pm_noguard (a b avg : PAVal) : PAVal :=
  if is_na a && !(is_na b) && pvLe b 2000 then b
  else if is_na b && !(is_na a) && pvLe a 2000 then a
  else if !(is_na a) && pvGt a 2000 && !(is_na b) && pvLe b 2000 then b
  else if !(is_na b) && pvGt b 2000 && !(is_na a) && pvLe a 2000 then a
  else if !(is_na a) && !(is_na b) then
    let diff := pvAbsDiff a b
    if decide (50 < diff) && decide (diff ≤ 500) then pvMax a b
    else if decide (500 < diff) then PAVal.none
    else if decide (diff ≤ 50) then avg
    else avg
  else avg

/-- A Python value fed to float conversion: absent, NaN, a number, a
numeric string, the string NaN, or an unparsable string. -/
inductive PyFloat where
  | none
  | nan
  | num (q : ℚ)
  | strNum (q : ℚ)
  | strNaN
  | strBad
deriving DecidableEq, Repr

/-- The humidity value after the defaulting rules of rh_correct_pm25:
None defaults to 50, an unparsable string defaults to 50, a numeric
string parses to its number, and NaN stays NaN since float conversion
of NaN succeeds. -/
inductive RHEff where
  | nan
  | val (q : ℚ)
deriving DecidableEq, Repr

/-- Defaulting of the humidity argument as performed by rh_correct_pm25. -/
def rh_effective : PyFloat → RHEff
  | PyFloat.none => RHEff.val 50
  | PyFloat.nan => RHEff.nan
  | PyFloat.num q => RHEff.val q
  | PyFloat.strNum q => RHEff.val q
  | PyFloat.strNaN => RHEff.nan
  | PyFloat.strBad => RHEff.val 50

/-- The piecewise denominator of rh_correct_pm25.  For a NaN humidity
both comparisons rh less than 30 and rh less than 70 are false in
Python, so control reaches the final branch with the constant for
rh at least 70. -/
def rh_denom : RHEff → ℚ
  | RHEff.nan => 1 + (24/100) / (100/70 - 1)
  | RHEff.val q =>
      if q < 30 then 1 + (24/100) / (100/30 - 1)
      else if q < 70 then 1 + (24/100) / (100/q - 1)
      else 1 + (24/100) / (100/70 - 1)

/-- Embedding of rh_correct_pm25 from update_light_pa.py. -/
def rh_correct_pm25 (pm25_raw : ℚ) (rh : PyFloat) : ℚ :=
  pm25_raw / rh_denom (rh_effective rh)

/-- Denominator written from the words of the specification claim:
below 30 the constant for rh equal 30, between 30 and 70 the rh
dependent formula, at 70 and above the constant for rh equal 70. -/
def claim_denom (rh : ℚ) : ℚ :=
  if rh < 30 then 1 + (24/100) / (100/30 - 1)
  else if 30 ≤ rh ∧ rh < 70 then 1 + (24/100) / (100/rh - 1)
  else 1 + (24/100) / (100/70 - 1)

/-- The threshold chain of get_pa_color, abstracted over the strictly
greater comparison so that the NaN case, where every comparison is
false, reuses the same chain. -/
def pa_color_chain (gt : ℚ → Bool) : String :=
  if gt 100 then "#640100"
  else if gt 90 then "#9a0100"
  else if gt 80 then "#cc0001"
  else if gt 70 then "#fe0002"
  else if gt 60 then "#fd6866"
  else if gt 50 then "#ff9835"
  else if gt 40 then "#ffcb00"
  else if gt 30 then "#fffe03"
  else if gt 20 then "#016797"
  else if gt 10 then "#0099cb"
  else if gt 0 then "#01cbff"
  else "#D3D3D3"

/-- Embedding of get_pa_color from update_light_pa.py.  Float
conversion fails on None and on an unparsable string, giving grey;
NaN flows through the chain with every comparison false, also giving
grey; a number or numeric string flows through the chain. -/
def get_pa_color (v : PyFloat) : String :=
  match v with
  | PyFloat.none => "#D3D3D3"
  | PyFloat.strBad => "#D3D3D3"
  | PyFloat.nan => pa_color_chain (fun _ => false)
  | PyFloat.strNaN => pa_color_chain (fun _ => false)
  | PyFloat.num q => pa_color_chain (fun c => decide (c < q))
  | PyFloat.strNum q => pa_color_chain (fun c => decide (c < q))

/-- One raw row from the sensor API, restricted to the consumed fields.
The last seen timestamp is a number or absent, matching the isinstance
check in the source; humidity can be any Python value the humidity
corrector accepts. -/
structure RawEntry where
  sensor_index : Option Int
  last_seen : Option ℚ
  humidity : PyFloat
  pm25_atm : PAVal
  pm25_atm_a : PAVal
  pm25_atm_b : PAVal
deriving DecidableEq, Repr

/-- One normalized per-sensor record, mirroring the dict built inside
fetch_purpleair_current_multi.  The ISO timestamp is modelled by the
epoch value it is derived from. -/
structure SensorReading where
  sensor_index : Option Int
  last_seen : Option ℚ
  last_seen_iso_utc : Option ℚ
  humidity : PyFloat
  pm25_atm : PAVal
  pm25_atm_a : PAVal
  pm25_atm_b : PAVal
  pm25_best : PAVal
  pm25_corr : Option ℚ
  is_fresh : Bool
deriving DecidableEq, Repr

/-- The freshness computation of fetch_purpleair_current_multi: a
numeric last seen gives the inclusive age comparison and an ISO
timestamp; an absent or non numeric last seen gives false and no
timestamp. -/
def freshness_of (now_ts max_age_minutes : ℚ) : Option ℚ → Bool × Option ℚ
  | some t => (decide (now_ts - t ≤ max_age_minutes * 60), some t)
  | none => (false, none)

/-- The number held by a present value; only evaluated on numbers. -/
def pvToQ : PAVal → ℚ
  | PAVal.num q => q
  | _ => 0

/-- The per-row body of the loop in fetch_purpleair_current_multi:
freshness, robust selection, and conditional humidity correction. -/
def process_row (now_ts max_age_minutes : ℚ) (e : RawEntry) : SensorReading :=
  let fr := freshness_of now_ts max_age_minutes e.last_seen
  let best := get_best_pm e.pm25_atm_a e.pm25_atm_b e.pm25_atm
  let corr := if fr.1 && !(is_na best)
              then some (rh_correct_pm25 (pvToQ best) e.humidity)
              else Option.none
  ⟨e.sensor_index, e.last_seen, fr.2, e.humidity,
   e.pm25_atm, e.pm25_atm_a, e.pm25_atm_b, best, corr, fr.1⟩

/-- Embedding of fetch_purpleair_current_multi on already decoded rows:
each row is normalized independently by the loop body. -/
def fetch_purpleair_current_multi (now_ts max_age_minutes : ℚ)
    (rows : List RawEntry) : List SensorReading :=
  rows.map (process_row now_ts max_age_minutes)

/-- The light decision recorded in the status payload: strategy tag,
contributing sensor identifiers, averaged corrected value, and color. -/
structure LightDecision where
  strategy : String
  used_sensor_indices : List Int
  used_pm25_corr : Option ℚ
  color_hex : Option String
deriving DecidableEq, Repr

/-- The usable filter of main: fresh sensors with a present corrected value. -/
def usable_of (sensors : List SensorReading) : List SensorReading :=
  sensors.filter (fun s => s.is_fresh && s.pm25_corr.isSome)

/-- The aggregation step of main, from the usable filter onward: an
empty usable set leaves the light untouched with the none available
strategy; otherwise the unweighted mean of the corrected values is
mapped through the color chain and the contributing identifiers are
recorded. -/
def aggregate (sensors : List SensorReading) : LightDecision :=
  let usable := usable_of sensors
  if usable.isEmpty then
    ⟨"none_available", [], Option.none, Option.none⟩
  else
    let idxs := usable.filterMap (fun s => s.sensor_index)
    let vals := usable.map (fun s => s.pm25_corr.getD 0)
    let avg := vals.sum / vals.length
    ⟨"average_fresh_sensors", idxs, some avg,
     some (get_pa_color (PyFloat.num avg))⟩

/-- An if-then-else of two strings is in a list containing both. -/
lemma ite_mem_str {c : Prop} [Decidable c] {a b : String} {l : List String}
    (ha : a ∈ l) (hb : b ∈ l) : (if c then a else b) ∈ l := by
  split_ifs <;> assumption

/-- Every result of the threshold chain is one of the twelve fixed colors. -/
lemma pa_color_chain_mem (gt : ℚ → Bool) : pa_color_chain gt ∈
    ["#640100", "#9a0100", "#cc0001", "#fe0002", "#fd6866", "#ff9835",
     "#ffcb00", "#fffe03", "#016797", "#0099cb", "#01cbff", "#D3D3D3"] := by
  simp only [pa_color_chain]
  refine ite_mem_str ?_ (ite_mem_str ?_ (ite_mem_str ?_ (ite_mem_str ?_ (ite_mem_str ?_
    (ite_mem_str ?_ (ite_mem_str ?_ (ite_mem_str ?_ (ite_mem_str ?_ (ite_mem_str ?_
    (ite_mem_str ?_ ?_))))))))))
  · exact List.Mem.head _
  · exact List.Mem.tail _ (List.Mem.head _)
  · exact List.Mem.tail _ (List.Mem.tail _ (List.Mem.head _))
  · exact List.Mem.tail _ (List.Mem.tail _ (List.Mem.tail _ (List.Mem.head _)))
  · exact List.Mem.tail _ (List.Mem.tail _ (List.Mem.tail _ (List.Mem.tail _ (List.Mem.head _))))
  · exact List.Mem.tail _ (List.Mem.tail _ (List.Mem.tail _ (List.Mem.tail _ (List.Mem.tail _ (List.Mem.head _)))))
  · exact List.Mem.tail _ (List.Mem.tail _ (List.Mem.tail _ (List.Mem.tail _ (List.Mem.tail _ (List.Mem.tail _ (List.Mem.head _))))))
  · exact List.Mem.tail _ (List.Mem.tail _ (List.Mem.tail _ (List.Mem.tail _ (List.Mem.tail _ (List.Mem.tail _ (List.Mem.tail _ (List.Mem.head _)))))))
  · exact List.Mem.tail _ (List.Mem.tail _ (List.Mem.tail _ (List.Mem.tail _ (List.Mem.tail _ (List.Mem.tail _ (List.Mem.tail _ (List.Mem.tail _ (List.Mem.head _))))))))
  · exact List.Mem.tail _ (List.Mem.tail _ (List.Mem.tail _ (List.Mem.tail _ (List.Mem.tail _ (List.Mem.tail _ (List.Mem.tail _ (List.Mem.tail _ (List.Mem.tail _ (List.Mem.head _)))))))))
  · exact List.Mem.tail _ (List.Mem.tail _ (List.Mem.tail _ (List.Mem.tail _ (List.Mem.tail _ (List.Mem.tail _ (List.Mem.tail _ (List.Mem.tail _ (List.Mem.tail _ (List.Mem.tail _ (List.Mem.head _))))))))))
  · exact List.Mem.tail _ (List.Mem.tail _ (List.Mem.tail _ (List.Mem.tail _ (List.Mem.tail _ (List.Mem.tail _ (List.Mem.tail _ (List.Mem.tail _ (List.Mem.tail _ (List.Mem.tail _ (List.Mem.tail _ (List.Mem.head _)))))))))))

/-- The piecewise denominator is strictly positive for every effective
humidity: the two constant branches are explicit positive rationals and
the dependent branch divides by a quantity that is positive whenever
30 is at most rh and rh is under 70. -/
lemma rh_denom_pos (e : RHEff) : 0 < rh_denom e := by
  cases e with
  | nan => norm_num [rh_denom]
  | val q =>
      simp only [rh_denom]
      split_ifs with h1 h2
      · norm_num
      · have hq : (0:ℚ) < q := by linarith
        have hgt : 1 < 100 / q := (one_lt_div hq).mpr (by linarith)
        have hdiv : 0 < (24/100 : ℚ) / (100 / q - 1) :=
          div_pos (by norm_num) (by linarith)
        linarith
      · norm_num

/-- The piecewise denominator is monotone non-decreasing in the
humidity. -/
lemma rh_denom_mono {q1 q2 : ℚ} (h : q1 ≤ q2) :
    rh_denom (RHEff.val q1) ≤ rh_denom (RHEff.val q2) := by
  simp only [rh_denom]
  split_ifs with ha hb hc hd he hf hg
  · exact le_refl _
  · -- q1 below 30, q2 in the dependent band
    have hq : (0:ℚ) < q2 := by linarith
    have hgt : 1 < 100 / q2 := (one_lt_div hq).mpr (by linarith)
    have hle : (100:ℚ) / q2 ≤ 100 / 30 :=
      div_le_div_of_nonneg_left (by norm_num) (by norm_num) (by linarith)
    have := div_le_div_of_nonneg_left (show (0:ℚ) ≤ 24/100 by norm_num)
      (show (0:ℚ) < 100 / q2 - 1 by linarith) (show (100:ℚ) / q2 - 1 ≤ 100 / 30 - 1 by linarith)
    linarith
  · norm_num
  · linarith
  · -- both in the dependent band
    have hq1 : (0:ℚ) < q1 := by linarith
    have hq2 : (0:ℚ) < q2 := by linarith
    have hgt : 1 < 100 / q2 := (one_lt_div hq2).mpr (by linarith)
    have hle : (100:ℚ) / q2 ≤ 100 / q1 :=
      div_le_div_of_nonneg_left (by norm_num) hq1 h
    have := div_le_div_of_nonneg_left (show (0:ℚ) ≤ 24/100 by norm_num)
      (show (0:ℚ) < 100 / q2 - 1 by linarith) (show (100:ℚ) / q2 - 1 ≤ 100 / q1 - 1 by linarith)
    linarith
  · -- q1 in the dependent band, q2 at or above 70
    have hq1 : (0:ℚ) < q1 := by linarith
    have hle : (100:ℚ) / 70 ≤ 100 / q1 :=
      div_le_div_of_nonneg_left (by norm_num) hq1 (by linarith)
    have := div_le_div_of_nonneg_left (show (0:ℚ) ≤ 24/100 by norm_num)
      (show (0:ℚ) < 100 / 70 - 1 by norm_num) (show (100:ℚ) / 70 - 1 ≤ 100 / q1 - 1 by linarith)
    linarith
  · linarith
  · linarith
  · exact le_refl _

/-- The source denominator agrees with the denominator transcribed from
the specification text on every real humidity. -/
lemma rh_denom_eq_claim (q : ℚ) : rh_denom (RHEff.val q) = claim_denom q := by
  by_cases h1 : q < 30
  · simp [rh_denom, claim_denom, h1]
  · by_cases h2 : q < 70
    · have h3 : 30 ≤ q ∧ q < 70 := ⟨by linarith, h2⟩
      simp [rh_denom, claim_denom, h1, h2, h3]
    · have h3 : ¬(30 ≤ q ∧ q < 70) := fun hc => h2 hc.2
      simp [rh_denom, claim_denom, h1, h2, h3]

/-- Claim C4: for every finite raw value and every humidity input, the
corrected value equals raw divided by the specified piecewise
denominator, with the humidity defaulting to 50 when absent or
unparsable. -/
theorem C4_rh_correct_formula (raw q : ℚ) :
    rh_correct_pm25 raw PyFloat.none = raw / claim_denom 50 ∧
    rh_correct_pm25 raw PyFloat.strBad = raw / claim_denom 50 ∧
    rh_correct_pm25 raw (PyFloat.num q) = raw / claim_denom q ∧
    rh_correct_pm25 raw (PyFloat.strNum q) = raw / claim_denom q := by
  refine ⟨?_, ?_, ?_, ?_⟩ <;>
    simp only [rh_correct_pm25, rh_effective, rh_denom_eq_claim]

/-- Claim C5, counterexample to the stated spot values: the denominator
at humidity 20 exceeds the claimed 1.0356 by more than one twentieth,
and the denominator at humidity 85 exceeds the claimed 1.056 by more
than one quarter. -/
theorem C5_counterexample :
    rh_denom (RHEff.val 20) = 193/175 ∧
    (1/20 : ℚ) < rh_denom (RHEff.val 20) - 1.0356 ∧
    rh_denom (RHEff.val 85) = 39/25 ∧
    (1/4 : ℚ) < rh_denom (RHEff.val 85) - 1.056 := by
  norm_num [rh_denom]

/-- Claim C5 as amended: for every fixed nonnegative raw value and
humidities in the interval from 0 up to but excluding 100, the
corrected value is monotonically non-decreasing as humidity decreases;
the denominator at humidity 20 is 193 over 175, at 50 it is 31 over 25,
and at 85 it is 39 over 25. -/
theorem C5_monotone_amended :
    (∀ raw rh1 rh2 : ℚ, 0 ≤ raw → 0 ≤ rh1 → rh1 < 100 → 0 ≤ rh2 → rh2 < 100 → rh1 ≤ rh2 →
      rh_correct_pm25 raw (PyFloat.num rh2) ≤ rh_correct_pm25 raw (PyFloat.num rh1)) ∧
    rh_denom (RHEff.val 20) = 193/175 ∧
    rh_denom (RHEff.val 50) = 31/25 ∧
    rh_denom (RHEff.val 85) = 39/25 := by
  refine ⟨?_, by norm_num [rh_denom], by norm_num [rh_denom], by norm_num [rh_denom]⟩
  intro raw rh1 rh2 hraw _ _ _ _ h
  have hmono := rh_denom_mono h
  have hpos := rh_denom_pos (RHEff.val rh1)
  exact div_le_div_of_nonneg_left hraw hpos hmono

/-- Witness for the amended claim C5 at raw 1, humidities 10 and 80. -/
theorem C5_monotone_amended_witness :
    rh_correct_pm25 1 (PyFloat.num 80) ≤ rh_correct_pm25 1 (PyFloat.num 10) :=
  C5_monotone_amended.1 1 10 80 (by norm_num) (by norm_num) (by norm_num)
    (by norm_num) (by norm_num) (by norm_num)

/-- Claim C7: freshness on a numeric last-seen timestamp is the
inclusive comparison of age against the maximum age in seconds, the
exact boundary counts as fresh, and an absent or non-numeric last-seen
yields not fresh with no derived timestamp. -/
theorem C7_freshness (now_ts m t : ℚ) :
    ((freshness_of now_ts m (some t)).1 = true ↔ now_ts - t ≤ m * 60) ∧
    (freshness_of now_ts m (some (now_ts - m * 60))).1 = true ∧
    freshness_of now_ts m Option.none = (false, Option.none) := by
  refine ⟨by simp [freshness_of], ?_, by simp [freshness_of]⟩
  simp only [freshness_of, decide_eq_true_eq]
  linarith

/-- Claim C8: the humidity correction is total, with a strictly
positive denominator for every humidity input, so multiplying the
result back by the denominator recovers the raw value exactly. -/
theorem C8_rh_correct_total (rh : PyFloat) :
    0 < rh_denom (rh_effective rh) ∧
    ∀ raw : ℚ, rh_correct_pm25 raw rh * rh_denom (rh_effective rh) = raw := by
  have hpos := rh_denom_pos (rh_effective rh)
  exact ⟨hpos, fun raw => div_mul_cancel₀ raw (ne_of_gt hpos)⟩

/-- Claim C10: a NaN humidity is not replaced by the default of 50;
it reaches the branch whose constant denominator is the one for
humidity at least 70, and the result is raw divided by that positive
constant. -/
theorem C10_nan_humidity (raw : ℚ) :
    rh_effective PyFloat.nan = RHEff.nan ∧
    rh_effective PyFloat.nan ≠ RHEff.val 50 ∧
    rh_correct_pm25 raw PyFloat.nan = raw / (1 + (24/100) / (100/70 - 1)) ∧
    0 < rh_denom (rh_effective PyFloat.nan) := by
  refine ⟨rfl, by simp [rh_effective], rfl, rh_denom_pos _⟩

/-- Claim C1: the selector follows exactly the stated five-step
precedence, with the remaining cases returning the network average
as-is, and the five quoted evaluations hold. -/
theorem C1_get_best_pm_precedence :
    (∀ a b avg : PAVal, get_best_pm a b avg = get_best_pm_claim a b avg) ∧
    get_best_pm PAVal.none (PAVal.num 5) (PAVal.num 5) = PAVal.num 5 ∧
    get_best_pm (PAVal.num 2500) (PAVal.num 10) (PAVal.num 10) = PAVal.num 10 ∧
    get_best_pm (PAVal.num 10) (PAVal.num 10) (PAVal.num 10) = PAVal.num 10 ∧
    get_best_pm (PAVal.num 10) (PAVal.num 80) (PAVal.num 45) = PAVal.num 80 ∧
    get_best_pm (PAVal.num 10) (PAVal.num 600) (PAVal.num 300) = PAVal.none := by
  refine ⟨?_, ?_, ?_, ?_, ?_, ?_⟩
  · intro a b avg
    rcases a with _ | _ | qa <;> rcases b with _ | _ | qb <;> rcases avg with _ | _ | qv <;>
      simp only [get_best_pm, get_best_pm_claim, is_na, pvLe, pvGt, pvGe, pvAbsDiff, pvMax,
        presentGe0, Bool.false_and, Bool.true_and, Bool.and_false, Bool.and_true,
        Bool.not_true, Bool.not_false, Bool.and_self, Bool.and_eq_true, decide_eq_true_eq,
        Bool.false_eq_true, if_false, if_true] <;>
      (try split_ifs) <;> rfl
  · norm_num [get_best_pm, is_na, pvLe, pvGt, pvGe, pvAbsDiff, pvMax]
  · norm_num [get_best_pm, is_na, pvLe, pvGt, pvGe, pvAbsDiff, pvMax]
  · norm_num [get_best_pm, is_na, pvLe, pvGt, pvGe, pvAbsDiff, pvMax]
  · norm_num [get_best_pm, is_na, pvLe, pvGt, pvGe, pvAbsDiff, pvMax]
  · norm_num [get_best_pm, is_na, pvLe, pvGt, pvGe, pvAbsDiff, pvMax]

/-- Claim C2: the color mapper returns one of twelve fixed colors,
selected by the first strictly-greater threshold, with values at most
zero and non-numeric inputs mapping to grey, and the five quoted
evaluations hold. -/
theorem C2_get_pa_color_bands :
    (∀ v : PyFloat, get_pa_color v ∈
      ["#640100", "#9a0100", "#cc0001", "#fe0002", "#fd6866", "#ff9835",
       "#ffcb00", "#fffe03", "#016797", "#0099cb", "#01cbff", "#D3D3D3"]) ∧
    (∀ q : ℚ, 100 < q → get_pa_color (PyFloat.num q) = "#640100") ∧
    (∀ q : ℚ, 90 < q → q ≤ 100 → get_pa_color (PyFloat.num q) = "#9a0100") ∧
    (∀ q : ℚ, 80 < q → q ≤ 90 → get_pa_color (PyFloat.num q) = "#cc0001") ∧
    (∀ q : ℚ, 70 < q → q ≤ 80 → get_pa_color (PyFloat.num q) = "#fe0002") ∧
    (∀ q : ℚ, 60 < q → q ≤ 70 → get_pa_color (PyFloat.num q) = "#fd6866") ∧
    (∀ q : ℚ, 50 < q → q ≤ 60 → get_pa_color (PyFloat.num q) = "#ff9835") ∧
    (∀ q : ℚ, 40 < q → q ≤ 50 → get_pa_color (PyFloat.num q) = "#ffcb00") ∧
    (∀ q : ℚ, 30 < q → q ≤ 40 → get_pa_color (PyFloat.num q) = "#fffe03") ∧
    (∀ q : ℚ, 20 < q → q ≤ 30 → get_pa_color (PyFloat.num q) = "#016797") ∧
    (∀ q : ℚ, 10 < q → q ≤ 20 → get_pa_color (PyFloat.num q) = "#0099cb") ∧
    (∀ q : ℚ, 0 < q → q ≤ 10 → get_pa_color (PyFloat.num q) = "#01cbff") ∧
    (∀ q : ℚ, q ≤ 0 → get_pa_color (PyFloat.num q) = "#D3D3D3") ∧
    get_pa_color PyFloat.none = "#D3D3D3" ∧
    get_pa_color PyFloat.strBad = "#D3D3D3" ∧
    get_pa_color PyFloat.nan = "#D3D3D3" ∧
    get_pa_color (PyFloat.num 0) = "#D3D3D3" ∧
    get_pa_color (PyFloat.num 10) = "#01cbff" ∧
    get_pa_color (PyFloat.num (100001/10000)) = "#0099cb" ∧
    get_pa_color (PyFloat.num 150) = "#640100" ∧
    get_pa_color PyFloat.strNaN = "#D3D3D3" := by
  refine ⟨?_, ?_, ?_, ?_, ?_, ?_, ?_, ?_, ?_, ?_, ?_, ?_, ?_, rfl, rfl, rfl, ?_, ?_, ?_, ?_, rfl⟩
  · intro v
    rcases v with _ | _ | q | q | _ | _ <;> simp only [get_pa_color] <;>
      first
        | exact pa_color_chain_mem _
        | exact List.Mem.tail _ (List.Mem.tail _ (List.Mem.tail _ (List.Mem.tail _ (List.Mem.tail _ (List.Mem.tail _ (List.Mem.tail _ (List.Mem.tail _ (List.Mem.tail _ (List.Mem.tail _ (List.Mem.tail _ (List.Mem.head _)))))))))))
  · intro q h1
    simp only [get_pa_color, pa_color_chain, decide_eq_true_eq]
    rw [if_pos (by linarith)]
  · intro q h1 h2
    simp only [get_pa_color, pa_color_chain, decide_eq_true_eq]
    rw [if_neg (by linarith), if_pos (by linarith)]
  · intro q h1 h2
    simp only [get_pa_color, pa_color_chain, decide_eq_true_eq]
    rw [if_neg (by linarith), if_neg (by linarith), if_pos (by linarith)]
  · intro q h1 h2
    simp only [get_pa_color, pa_color_chain, decide_eq_true_eq]
    rw [if_neg (by linarith), if_neg (by linarith), if_neg (by linarith), if_pos (by linarith)]
  · intro q h1 h2
    simp only [get_pa_color, pa_color_chain, decide_eq_true_eq]
    rw [if_neg (by linarith), if_neg (by linarith), if_neg (by linarith), if_neg (by linarith),
        if_pos (by linarith)]
  · intro q h1 h2
    simp only [get_pa_color, pa_color_chain, decide_eq_true_eq]
    rw [if_neg (by linarith), if_neg (by linarith), if_neg (by linarith), if_neg (by linarith),
        if_neg (by linarith), if_pos (by linarith)]
  · intro q h1 h2
    simp only [get_pa_color, pa_color_chain, decide_eq_true_eq]
    rw [if_neg (by linarith), if_neg (by linarith), if_neg (by linarith), if_neg (by linarith),
        if_neg (by linarith), if_neg (by linarith), if_pos (by linarith)]
  · intro q h1 h2
    simp only [get_pa_color, pa_color_chain, decide_eq_true_eq]
    rw [if_neg (by linarith), if_neg (by linarith), if_neg (by linarith), if_neg (by linarith),
        if_neg (by linarith), if_neg (by linarith), if_neg (by linarith), if_pos (by linarith)]
  · intro q h1 h2
    simp only [get_pa_color, pa_color_chain, decide_eq_true_eq]
    rw [if_neg (by linarith), if_neg (by linarith), if_neg (by linarith), if_neg (by linarith),
        if_neg (by linarith), if_neg (by linarith), if_neg (by linarith), if_neg (by linarith),
        if_pos (by linarith)]
  · intro q h1 h2
    simp only [get_pa_color, pa_color_chain, decide_eq_true_eq]
    rw [if_neg (by linarith), if_neg (by linarith), if_neg (by linarith), if_neg (by linarith),
        if_neg (by linarith), if_neg (by linarith), if_neg (by linarith), if_neg (by linarith),
        if_neg (by linarith), if_pos (by linarith)]
  · intro q h1 h2
    simp only [get_pa_color, pa_color_chain, decide_eq_true_eq]
    rw [if_neg (by linarith), if_neg (by linarith), if_neg (by linarith), if_neg (by linarith),
        if_neg (by linarith), if_neg (by linarith), if_neg (by linarith), if_neg (by linarith),
        if_neg (by linarith), if_neg (by linarith), if_pos (by linarith)]
  · intro q h1
    simp only [get_pa_color, pa_color_chain, decide_eq_true_eq]
    rw [if_neg (by linarith), if_neg (by linarith), if_neg (by linarith), if_neg (by linarith),
        if_neg (by linarith), if_neg (by linarith), if_neg (by linarith), if_neg (by linarith),
        if_neg (by linarith), if_neg (by linarith), if_neg (by linarith)]
  · norm_num [get_pa_color, pa_color_chain]
  · norm_num [get_pa_color, pa_color_chain]
  · norm_num [get_pa_color, pa_color_chain]
  · norm_num [get_pa_color, pa_color_chain]

/-- Witness for claim C2 at the concrete value 95, in the band strictly
above 90 and at most 100. -/
theorem C2_get_pa_color_bands_witness :
    get_pa_color (PyFloat.num 95) = "#9a0100" :=
  C2_get_pa_color_bands.2.2.1 95 (by norm_num) (by norm_num)

/-- Claim C9, counterexample: with both channels present, channel
difference 20 within 50, but channel a above 2000 and channel b at most
2000, the selector returns channel b rather than the average. -/
theorem C9_counterexample :
    |(2010:ℚ) - 1990| ≤ 50 ∧
    get_best_pm (PAVal.num 2010) (PAVal.num 1990) (PAVal.num 7) = PAVal.num 1990 ∧
    PAVal.num 1990 ≠ PAVal.num 7 := by
  norm_num [get_best_pm, is_na, pvLe, pvGt, pvGe, pvAbsDiff, pvMax]

/-- Claim C9 as amended: for present channels within 50 of each other
such that neither exceeds 2000 while the other does not, the selector
returns the average as-is, even when the average is missing or
negative; and the nonnegativity guard on the average is redundant, the
selector being pointwise equal to the variant without it. -/
theorem C9_avg_fallthrough_amended :
    (∀ (qa qb : ℚ) (avg : PAVal), |qa - qb| ≤ 50 → ((qa ≤ 2000) ↔ (qb ≤ 2000)) →
      get_best_pm (PAVal.num qa) (PAVal.num qb) avg = avg) ∧
    (∀ a b avg : PAVal, get_best_pm a b avg = get_best_pm_noguard a b avg) := by
  constructor
  · intro qa qb avg hdiff hiff
    simp only [get_best_pm, is_na, pvLe, pvGt, pvGe, pvAbsDiff, pvMax,
      Bool.false_and, Bool.true_and, Bool.and_false, Bool.and_true, Bool.not_false,
      Bool.and_self, Bool.and_eq_true, decide_eq_true_eq, Bool.false_eq_true, if_false,
      if_true]
    rw [if_neg (fun hc => absurd (hiff.mpr hc.2) (not_le.mpr hc.1)),
        if_neg (fun hc => absurd (hiff.mp hc.2) (not_le.mpr hc.1)),
        if_neg (fun hc => absurd hdiff (not_le.mpr hc.1)),
        if_neg (fun hc => absurd hdiff (not_le.mpr (by linarith)))]
    split_ifs <;> rfl
  · intro a b avg
    rcases a with _ | _ | qa <;> rcases b with _ | _ | qb <;> rcases avg with _ | _ | qv <;>
      simp only [get_best_pm, get_best_pm_noguard, is_na, pvLe, pvGt, pvGe, pvAbsDiff, pvMax,
        Bool.false_and, Bool.true_and, Bool.and_false, Bool.and_true,
        Bool.not_true, Bool.not_false, Bool.and_self, Bool.and_eq_true, decide_eq_true_eq,
        Bool.false_eq_true, if_false, if_true] <;>
      (try split_ifs) <;> rfl

/-- Witness for the amended claim C9 at channels 10 and 12 with a
missing average. -/
theorem C9_avg_fallthrough_amended_witness :
    get_best_pm (PAVal.num 10) (PAVal.num 12) PAVal.none = PAVal.none :=
  C9_avg_fallthrough_amended.1 10 12 PAVal.none (by norm_num) (by norm_num)

/-- Claim C3: for every reading produced by the per-sensor pipeline,
the corrected value is present exactly when the reading is fresh and
the selected best raw value is present and non-missing. -/
theorem C3_corr_iff_fresh_and_best (now_ts max_age : ℚ) (rows : List RawEntry)
    (r : SensorReading) (hr : r ∈ fetch_purpleair_current_multi now_ts max_age rows) :
    r.pm25_corr ≠ Option.none ↔ (r.is_fresh = true ∧ is_na r.pm25_best = false) := by
  simp only [fetch_purpleair_current_multi, List.mem_map] at hr
  obtain ⟨e, -, rfl⟩ := hr
  by_cases hf : (freshness_of now_ts max_age e.last_seen).1 = true <;>
  by_cases hb : is_na (get_best_pm e.pm25_atm_a e.pm25_atm_b e.pm25_atm) = false <;>
    simp [process_row, hf, hb]

/-- Witness for claim C3 on one fresh row with agreeing channels. -/
theorem C3_corr_iff_fresh_and_best_witness :
    (process_row 0 30 ⟨some 1, some 0, PyFloat.num 40, PAVal.num 10, PAVal.num 10,
      PAVal.num 10⟩).pm25_corr ≠ Option.none ↔
    ((process_row 0 30 ⟨some 1, some 0, PyFloat.num 40, PAVal.num 10, PAVal.num 10,
      PAVal.num 10⟩).is_fresh = true ∧
     is_na (process_row 0 30 ⟨some 1, some 0, PyFloat.num 40, PAVal.num 10, PAVal.num 10,
      PAVal.num 10⟩).pm25_best = false) :=
  C3_corr_iff_fresh_and_best 0 30
    [⟨some 1, some 0, PyFloat.num 40, PAVal.num 10, PAVal.num 10, PAVal.num 10⟩] _
    (by simp [fetch_purpleair_current_multi])

/-- Claim C6: the aggregation filters to the fresh readings with a
present corrected value; an empty usable set gives the none-available
decision with no color and no value; otherwise the decision carries
the unweighted mean of the corrected values, its color, and the
contributing sensor identifiers. -/
theorem C6_aggregation (sensors : List SensorReading) :
    usable_of sensors = sensors.filter (fun s => s.is_fresh && s.pm25_corr.isSome) ∧
    (usable_of sensors = [] →
      aggregate sensors = ⟨"none_available", [], Option.none, Option.none⟩) ∧
    (usable_of sensors ≠ [] →
      aggregate sensors =
        ⟨"average_fresh_sensors",
         (usable_of sensors).filterMap (fun s => s.sensor_index),
         some (((usable_of sensors).map (fun s => s.pm25_corr.getD 0)).sum /
               ((usable_of sensors).length : ℚ)),
         some (get_pa_color (PyFloat.num
           (((usable_of sensors).map (fun s => s.pm25_corr.getD 0)).sum /
            ((usable_of sensors).length : ℚ))))⟩) := by
  refine ⟨rfl, ?_, ?_⟩
  · intro h
    simp [aggregate, h]
  · intro h
    have hne : (usable_of sensors).isEmpty = false := by
      cases hu : usable_of sensors with
      | nil => exact absurd hu h
      | cons x xs => simp
    simp [aggregate, hne, List.length_map]

/-- Witness for claim C6 on a single fresh usable reading with
corrected value 12, averaging to 12 and the band strictly above 10. -/
theorem C6_aggregation_witness :
    (aggregate [⟨some 7, some 0, some 0, PyFloat.num 50, PAVal.num 10, PAVal.num 10,
      PAVal.num 10, PAVal.num 10, some 12, true⟩]).strategy = "average_fresh_sensors" := by
  have h := (C6_aggregation [⟨some 7, some 0, some 0, PyFloat.num 50, PAVal.num 10,
    PAVal.num 10, PAVal.num 10, PAVal.num 10, some 12, true⟩]).2.2 (by simp [usable_of])
  rw [h]

end UpdateLightPA
